import Mathlib

/-!
Verification development for the AI-skills dashboard's interactive
selection and state-synchronization engine (`app.js`).  The definitions
below are a shallow embedding of the JavaScript source: JS objects used
as keyed mappings become association lists (preserving declaration
order), `null`/`undefined` become `Option`, JS truthiness on strings is
an explicit emptiness test, and DOM side effects are recorded as an
explicit trace of effect events.
-/

namespace Dashboard

/-- A selected chart element: `{ chartKey, label }` in the source. -/
structure Insight where
  chartKey : String
  label : String
deriving DecidableEq, Repr

/-- The process-wide mutable selection state (`const state = {...}`). -/
structure AppState where
  selectedInsight : Option Insight
  selectedDiscipline : Option String
  sourceFilter : String
deriving DecidableEq, Repr

/-- The initial value of `state` before any seeding runs. -/
def initState : AppState :=
  { selectedInsight := none, selectedDiscipline := none, sourceFilter := "selection" }

/-- First-match association-list lookup: models both `URLSearchParams.get`
(first value wins) and JS object indexing `obj[key]` (objects cannot hold
duplicate keys, so first match is exact). -/
def assocGet {α : Type} (key : String) : List (String × α) → Option α
  | [] => none
  | (k, v) :: rest => if k = key then some v else assocGet key rest

/-- `getSelectionKey(chartKey, label)` — the template literal
`chartKey ++ "::" ++ label`. -/
def getSelectionKey (chartKey label : String) : String :=
  chartKey ++ "::" ++ label

/-- `localStorage.getItem("selectedDiscipline") || null`: a stored empty
string is coerced to `null` by the `||`. -/
def normStore : Option String → Option String
  | some v => if v = "" then none else some v
  | none => none

/-- `updateHash` (lines 113-122): the fragment, as the ordered key/value
pair list a `URLSearchParams` would serialize.  `discipline` is written
only when truthy; `chart` and `label` are written exactly when an insight
is selected.  Insertion order is discipline, chart, label. -/
def updateHashParams (s : AppState) : List (String × String) :=
  (match s.selectedDiscipline with
   | some d => if d = "" then [] else [("discipline", d)]
   | none => []) ++
  (match s.selectedInsight with
   | some i => [("chart", i.chartKey), ("label", i.label)]
   | none => [])

/-- `applyStateFromHash` (lines 124-136): decode the fragment pair list,
with `stored` the value of `localStorage.getItem("selectedDiscipline")`.
A truthy `discipline` param wins, else the stored value (with `|| null`);
`selectedInsight` is overwritten only when both `chart` and `label`
params are truthy, otherwise it keeps its prior value. -/
def applyStateFromHash (params : List (String × String)) (stored : Option String)
    (s : AppState) : AppState :=
  let dParam := assocGet "discipline" params
  let cParam := assocGet "chart" params
  let lParam := assocGet "label" params
  let s1 :=
    match dParam with
    | some d =>
        if d = "" then { s with selectedDiscipline := normStore stored }
        else { s with selectedDiscipline := some d }
    | none => { s with selectedDiscipline := normStore stored }
  match cParam, lParam with
  | some c, some l =>
      if c = "" ∨ l = "" then s1
      else { s1 with selectedInsight := some { chartKey := c, label := l } }
  | some _, none => s1
  | none, some _ => s1
  | none, none => s1

/-- The state transition of `handleSelection` (lines 186-190): clear the
selection when the `::`-joined selection keys coincide, else replace it. -/
def handleSelectionState (chartKey label : String) (s : AppState) : AppState :=
  let sameSelection :=
    match s.selectedInsight with
    | some i => getSelectionKey i.chartKey i.label == getSelectionKey chartKey label
    | none => false
  { s with selectedInsight :=
      if sameSelection then none else some { chartKey := chartKey, label := label } }

/-- Observable side effects of the mutators, in execution order. -/
inductive Eff where
  /-- `localStorage.setItem("selectedDiscipline", value)` -/
  | persistDiscipline (value : String)
  /-- `updateHash()` writing this fragment via `history.replaceState` -/
  | writeHash (fragment : List (String × String))
  /-- `updateAllChartStyles()` — re-render of all three chart adapters -/
  | renderCharts
  /-- `renderInsightDrawer()` — re-render of the drilldown drawer -/
  | renderDrawer
  /-- `renderSources()` — re-render of the source list -/
  | renderSourceList
deriving DecidableEq, Repr

/-- `handleSelection` (lines 186-194), with its effect trace: mutate,
write the hash of the mutated state, re-render charts, drawer, and (via
`renderInsightDrawer`'s tail call) the source list. -/
def handleSelectionRun (chartKey label : String) (s : AppState) : AppState × List Eff :=
  let s2 := handleSelectionState chartKey label s
  (s2, [Eff.writeHash (updateHashParams s2), Eff.renderCharts, Eff.renderDrawer,
        Eff.renderSourceList])

/-- The clear-selection button handler (lines 462-467). -/
def clearInsightRun (s : AppState) : AppState × List Eff :=
  let s2 := { s with selectedInsight := none }
  (s2, [Eff.writeHash (updateHashParams s2), Eff.renderCharts, Eff.renderDrawer,
        Eff.renderSourceList])

/-- The sources-filter select handler (lines 469-472): set the filter and
re-render the source list only. -/
def setSourceFilterRun (v : String) (s : AppState) : AppState × List Eff :=
  ({ s with sourceFilter := v }, [Eff.renderSourceList])

/-! ## The dataset (`data.json`, immutable for the session) -/

/-- A citation record in `sources`; `name`/`url` may be absent. -/
structure Source where
  name : Option String
  url : Option String
deriving DecidableEq, Repr

/-- Narrative drill-down content keyed by a chart label. -/
structure DrilldownDetail where
  headline : String
  interpretation : String
  whyItMatters : String
  implications : List String
  teachingFocus : String
deriving DecidableEq, Repr

/-- One entry of the `charts` mapping. -/
structure ChartSpec where
  labels : List String
  values : List Int
  sourceId : Option String
  asOfDate : Option String
  method : Option String
  drilldown : List (String × DrilldownDetail)
deriving DecidableEq, Repr

/-- One entry of the `disciplines` mapping. -/
structure Discipline where
  topSkillsEmphasis : List String
  learningOutcomes : List String
  sampleAssignments : List String
  watchOuts : List String
  sources : List String
deriving DecidableEq, Repr

/-- The parts of the loaded dataset the selection engine reads.  Keyed
mappings are association lists in declaration order, matching
`Object.keys`/`Object.entries` order for string keys. -/
structure Dataset where
  charts : List (String × ChartSpec)
  sources : List (String × Source)
  disciplines : List (String × Discipline)
deriving DecidableEq, Repr

/-! ## Source aggregation (lines 420-459) -/

/-- `set.add` on a JS `Set`: keep the first occurrence, preserve
insertion order. -/
def addUnique (acc : List String) (x : String) : List String :=
  if x ∈ acc then acc else acc ++ [x]

/-- Spreading a JS `Set` built by inserting the elements of `l` in
order: insertion-ordered de-duplication keeping first occurrences. -/
def setFold (l : List String) : List String :=
  l.foldl addUnique []

/-- Lines 422-425: the contribution of `selectedInsight` to the
aggregated ids — the chart's `sourceId` when the chart exists and its
`sourceId` is truthy. -/
def chartInsightIds (data : Dataset) (s : AppState) : List String :=
  match s.selectedInsight with
  | some i =>
      match assocGet i.chartKey data.charts with
      | some ch =>
          match ch.sourceId with
          | some sid => if sid = "" then [] else [sid]
          | none => []
      | none => []
  | none => []

/-- Lines 426-429: the contribution of `selectedDiscipline` — all ids in
`discipline.sources` when a truthy discipline is selected (`?? []` when
the discipline or its `sources` list is missing). -/
def disciplineSourceIds (data : Dataset) (s : AppState) : List String :=
  match s.selectedDiscipline with
  | some d =>
      if d = "" then []
      else
        match assocGet d data.disciplines with
        | some disc => disc.sources
        | none => []
  | none => []

/-- `getSelectedSourceIds` (lines 420-431): a `Set` seeded with the
insight's chart source id, then the discipline's source ids, spread back
to an array. -/
def getSelectedSourceIds (data : Dataset) (s : AppState) : List String :=
  setFold (chartInsightIds data s ++ disciplineSourceIds data s)

/-- Line 437-438 of `renderSources`: the id list to display — every key
of `sources` in declaration order under the `"all"` filter, else the
selection aggregation. -/
def sourceIdsFor (data : Dataset) (s : AppState) : List String :=
  if s.sourceFilter = "all" then data.sources.map Prod.fst
  else getSelectedSourceIds data s

/-- One rendered `<li><a>` entry of the source list. -/
structure SourceItem where
  href : String
  text : String
deriving DecidableEq, Repr

/-- Lines 447-458: resolve one aggregated id; an id with no entry in
`sources` is skipped (`if (!source) return;`), otherwise the link gets
`source.url ?? "#"` and `source.name ?? sourceId`. -/
def resolveItem (data : Dataset) (sid : String) : Option SourceItem :=
  match assocGet sid data.sources with
  | some src => some { href := src.url.getD "#", text := src.name.getD sid }
  | none => none

/-- What the source-list panel shows. -/
inductive SourcesView where
  /-- the explicit "No sources tied to the current selection yet." item -/
  | placeholder
  /-- the resolved link entries, in order -/
  | items (entries : List SourceItem)
deriving DecidableEq, Repr

/-- `renderSources` (lines 433-459): the placeholder is shown exactly
when the aggregated id list is empty — the emptiness check happens on
the ids, before resolution — otherwise each id is resolved and
unresolvable ids are skipped. -/
def renderSourcesView (data : Dataset) (s : AppState) : SourcesView :=
  let ids := sourceIdsFor data s
  if ids = [] then SourcesView.placeholder
  else SourcesView.items (ids.filterMap (resolveItem data))

/-! ## Drilldown resolver (lines 138-184) -/

/-- What the insight drawer shows. -/
inductive DrawerView where
  /-- no selection: the "Select a chart point…" prompt -/
  | prompt
  /-- selection with no drilldown entry: "No drill-down details available…" -/
  | noDetails
  /-- a matched detail plus resolved source text/link and as-of date -/
  | content (detail : DrilldownDetail) (sourceText : String) (sourceHref : String)
      (asOf : String)
deriving DecidableEq, Repr

/-- The chart referenced by an insight (`dashboardData.charts?.[chartKey]`). -/
def drawerChart (data : Dataset) (i : Insight) : Option ChartSpec :=
  assocGet i.chartKey data.charts

/-- The drilldown entry referenced by an insight
(`chartObj?.drilldown?.[label]`). -/
def drawerDetail (data : Dataset) (i : Insight) : Option DrilldownDetail :=
  match drawerChart data i with
  | some ch => assocGet i.label ch.drilldown
  | none => none

/-- The resolved source record (`dashboardData.sources?.[chartObj?.sourceId]`). -/
def drawerSource (data : Dataset) (i : Insight) : Option Source :=
  match (drawerChart data i).bind ChartSpec.sourceId with
  | some sid => assocGet sid data.sources
  | none => none

/-- Line 181's link text: `source?.name ?? chartObj?.sourceId ?? "Unknown source"`. -/
def resolvedName (data : Dataset) (i : Insight) : String :=
  (((drawerSource data i).bind Source.name) <|>
    ((drawerChart data i).bind ChartSpec.sourceId)).getD "Unknown source"

/-- Line 181's link target: `source?.url ?? "#"`. -/
def resolvedUrl (data : Dataset) (i : Insight) : String :=
  ((drawerSource data i).bind Source.url).getD "#"

/-- Line 181's date: `chartObj?.asOfDate ?? "n/a"`. -/
def resolvedAsOf (data : Dataset) (i : Insight) : String :=
  ((drawerChart data i).bind ChartSpec.asOfDate).getD "n/a"

/-- `renderInsightDrawer` (lines 138-184): prompt when nothing is
selected; fallback message when the selection has no drilldown entry;
otherwise the detail with resolved provenance.  Every lookup is an
`Option` with an explicit default, so the function is total. -/
def renderInsightDrawer (data : Dataset) (s : AppState) : DrawerView :=
  match s.selectedInsight with
  | none => DrawerView.prompt
  | some i =>
      match drawerDetail data i with
      | none => DrawerView.noDetails
      | some d =>
          DrawerView.content d (resolvedName data i) (resolvedUrl data i)
            (resolvedAsOf data i)

/-! ## Discipline view and boot seeding (lines 366-418, 498-512) -/

/-- `showDiscipline` (lines 373-403) with its effect trace: early return
when the discipline is unknown; otherwise set `selectedDiscipline`,
persist it, write the hash, and re-render the source list (the chart
adapters and the drawer are not re-rendered here). -/
def showDisciplineRun (data : Dataset) (name : String) (s : AppState) :
    AppState × List Eff :=
  match assocGet name data.disciplines with
  | none => (s, [])
  | some _ =>
      let s2 := { s with selectedDiscipline := some name }
      (s2, [Eff.persistDiscipline name, Eff.writeHash (updateHashParams s2),
            Eff.renderSourceList])

/-- The state effect of `renderDisciplineView` (lines 366-418): when
disciplines exist, show the seeded discipline if it is a known key, else
the first one (line 417), which sets `selectedDiscipline`. -/
def renderDisciplineViewState (data : Dataset) (s : AppState) : AppState :=
  match data.disciplines with
  | [] => s
  | (n0, _) :: _ =>
      (showDisciplineRun data
        (match s.selectedDiscipline with
         | some d => if (data.disciplines.map Prod.fst).contains d then d else n0
         | none => n0) s).1

/-- The selection-state outcome of `init` (lines 498-512) for a given
hash fragment and stored discipline: `applyStateFromHash` seeds the
state, the chart constructors and renderers do not mutate it, and
`renderDisciplineView` finishes by auto-selecting a discipline. -/
def initStateFrom (data : Dataset) (params : List (String × String))
    (stored : Option String) : AppState :=
  renderDisciplineViewState data (applyStateFromHash params stored initState)

/-- The spec's validity condition on a selected insight: its chart key
names a chart and its label is one of that chart's labels. -/
def insightValid (data : Dataset) (i : Insight) : Bool :=
  match assocGet i.chartKey data.charts with
  | some ch => ch.labels.contains i.label
  | none => false

/-- The spec's state invariant: a present `selectedInsight` refers to a
real chart and one of its labels, and a present `selectedDiscipline` is
a key of `disciplines`. -/
def stateInv (data : Dataset) (s : AppState) : Bool :=
  (match s.selectedInsight with
   | some i => insightValid data i
   | none => true) &&
  (match s.selectedDiscipline with
   | some d => (assocGet d data.disciplines).isSome
   | none => true)

/-! ## Raw JSON documents and the data validator (lines 35-48, 514-529) -/

/-- A raw JSON value as returned by `response.json()`. -/
inductive Json where
  | null
  | bool (b : Bool)
  | num (n : Int)
  | str (s : String)
  | arr (elems : List Json)
  | obj (fields : List (String × Json))

/-- Whether a JSON value is the literal `null`. -/
def isNullJson : Json → Bool
  | Json.null => true
  | _ => false

/-- JS truthiness of a JSON value. -/
def jsTruthy : Json → Bool
  | Json.null => false
  | Json.bool b => b
  | Json.num n => n != 0
  | Json.str s => s != ""
  | Json.arr _ => true
  | Json.obj _ => true

/-- `typeof v === "object"` for a JSON value (`null` and arrays included). -/
def jsTypeIsObject : Json → Bool
  | Json.null => true
  | Json.arr _ => true
  | Json.obj _ => true
  | _ => false

/-- Property access `v.k` on a non-null value: a field of an object,
`undefined` (`none`) on everything else. -/
def jsGet (j : Json) (k : String) : Option Json :=
  match j with
  | Json.obj fields => assocGet k fields
  | _ => none

/-- Optional-chained access `v?.k`: `undefined` propagates. -/
def jsGetOpt (o : Option Json) (k : String) : Option Json :=
  match o with
  | some j => jsGet j k
  | none => none

/-- Truthiness of a possibly-`undefined` value. -/
def jsTruthyOpt : Option Json → Bool
  | some j => jsTruthy j
  | none => false

/-- Line 37's check: `!(!data || typeof data !== "object")` — holds
exactly for arrays and objects. -/
def chkObject (data : Json) : Bool :=
  jsTruthy data && jsTypeIsObject data

/-- Line 38's check: `data.takeaway?.headline` is truthy. -/
def chkHeadline (data : Json) : Bool :=
  jsTruthyOpt (jsGetOpt (jsGet data "takeaway") "headline")

/-- Line 39's check: `Array.isArray(data.coreSkills)`. -/
def chkCoreSkills (data : Json) : Bool :=
  match jsGet data "coreSkills" with
  | some (Json.arr _) => true
  | _ => false

/-- Lines 40-42's check for one chart key:
`data.charts?.[key]?.sourceId` is truthy. -/
def chkChartSource (data : Json) (key : String) : Bool :=
  jsTruthyOpt (jsGetOpt (jsGetOpt (jsGet data "charts") key) "sourceId")

/-- Lines 43-45's check: `sources` is truthy, `typeof "object"`, and not
an array — exactly a JSON object. -/
def chkSources (data : Json) : Bool :=
  match jsGet data "sources" with
  | some (Json.obj _) => true
  | _ => false

/-- Line 46's check: `disciplines` is truthy and `typeof "object"` —
objects pass, and arrays pass too since `typeof [] === "object"` and
arrays are truthy. -/
def chkDisciplines (data : Json) : Bool :=
  match jsGet data "disciplines" with
  | some (Json.obj _) => true
  | some (Json.arr _) => true
  | _ => false

/-- The error list accumulated by `validateDataShape` on a non-null
document, in push order. -/
def validationIssues (data : Json) : List String :=
  (if chkObject data then [] else ["Dashboard data is not a valid object."]) ++
  (if chkHeadline data then [] else ["Missing takeaway.headline."]) ++
  (if chkCoreSkills data then [] else ["Missing coreSkills array."]) ++
  (if chkChartSource data "aiMentionsTrend" then []
   else ["Missing charts.aiMentionsTrend source metadata."]) ++
  (if chkChartSource data "aiMentionsByFamily" then []
   else ["Missing charts.aiMentionsByFamily source metadata."]) ++
  (if chkChartSource data "aiOutsideITShare" then []
   else ["Missing charts.aiOutsideITShare source metadata."]) ++
  (if chkSources data then [] else ["sources must be an object keyed by sourceId."]) ++
  (if chkDisciplines data then [] else ["Missing disciplines object."])

/-- `validateDataShape` (lines 35-48).  On `null` input the unguarded
access `data.takeaway` on line 38 throws a `TypeError` (modelled as
`Except.error`); on every other JSON document the function returns its
issue list. -/
def validateDataShape (data : Json) : Except Unit (List String) :=
  if isNullJson data then Except.error ()
  else Except.ok (validationIssues data)

/-- The boot chain's handling of a returned issue list (lines 516-529):
an empty list clears the alert and runs `init`; a non-empty list shows
the concatenated validation alert, throws, and the catch handler shows
the failure alert — `init` never runs.  Result: the alerts shown in
order, and whether initialization ran. -/
def bootRun (issues : List String) : List String × Bool :=
  if issues = [] then ([], true)
  else
    (["Data validation problem: " ++ String.intercalate " " issues,
      "Could not initialize dashboard: " ++ String.intercalate " " issues], false)

/-! ## A concrete dataset instance used for evaluation -/

/-- Drilldown detail for the trend chart's first quarter. -/
def detailQ1 : DrilldownDetail :=
  { headline := "Q1 headline", interpretation := "interp", whyItMatters := "why",
    implications := ["imp1"], teachingFocus := "teach" }

/-- Drilldown detail for the family chart's Nursing bar. -/
def detailNursing : DrilldownDetail :=
  { headline := "H1", interpretation := "interp2", whyItMatters := "why2",
    implications := [], teachingFocus := "teach2" }

/-- The trend chart entry. -/
def trendChart : ChartSpec :=
  { labels := ["2024-Q1", "2024-Q2"], values := [5, 7], sourceId := some "lightcast",
    asOfDate := some "2025-01", method := some "posting analysis",
    drilldown := [("2024-Q1", detailQ1)] }

/-- The by-family chart entry. -/
def familyChart : ChartSpec :=
  { labels := ["Nursing", "Business"], values := [12, 9], sourceId := some "oecd",
    asOfDate := some "2025-02", method := some "survey", drilldown := [("Nursing", detailNursing)] }

/-- The share chart entry; its `sourceId` has no entry in `sources`. -/
def shareChart : ChartSpec :=
  { labels := ["Outside IT", "IT"], values := [60, 40], sourceId := some "ghost",
    asOfDate := some "2025-03", method := none, drilldown := [] }

/-- A concrete dataset with the three known chart identifiers. -/
def sampleData : Dataset :=
  { charts := [("aiMentionsTrend", trendChart), ("aiMentionsByFamily", familyChart),
               ("aiOutsideITShare", shareChart)],
    sources := [("lightcast", { name := some "Lightcast", url := some "https://lc.example" }),
                ("oecd", { name := some "OECD", url := none })],
    disciplines := [("Nursing",
                     { topSkillsEmphasis := ["a"], learningOutcomes := ["b"],
                       sampleAssignments := ["c"], watchOuts := ["d"],
                       sources := ["oecd", "lightcast", "oecd"] }),
                    ("Business",
                     { topSkillsEmphasis := [], learningOutcomes := [],
                       sampleAssignments := [], watchOuts := [], sources := [] })] }

/-- A state whose insight points at the chart with the unresolvable
source id. -/
def ghostState : AppState :=
  { selectedInsight := some { chartKey := "aiOutsideITShare", label := "IT" },
    selectedDiscipline := none, sourceFilter := "selection" }

/-- A JSON document that passes every code check although its
`disciplines` field is an array, not a keyed mapping. -/
def arrDisciplinesDoc : Json :=
  Json.obj
    [("takeaway", Json.obj [("headline", Json.str "H")]),
     ("coreSkills", Json.arr []),
     ("charts", Json.obj
        [("aiMentionsTrend", Json.obj [("sourceId", Json.str "s1")]),
         ("aiMentionsByFamily", Json.obj [("sourceId", Json.str "s2")]),
         ("aiOutsideITShare", Json.obj [("sourceId", Json.str "s3")])]),
     ("sources", Json.obj []),
     ("disciplines", Json.arr [])]

/-- The claim's notion of a well-formed fragment, written from the
spec's words: a query-string-shaped pair list over the recognized keys
in the fixed order discipline, chart, label, with truthy values,
`chart` and `label` travelling together, and no duplicate keys — the
shapes the encoder itself can produce. -/
def wfFrag : List (String × String) → Bool
  | [] => true
  | [(k, v)] => k == "discipline" && v != ""
  | [(k1, v1), (k2, v2)] =>
      k1 == "chart" && k2 == "label" && v1 != "" && v2 != ""
  | [(k1, v1), (k2, v2), (k3, v3)] =>
      k1 == "discipline" && k2 == "chart" && k3 == "label" &&
        v1 != "" && v2 != "" && v3 != ""
  | _ => false

/-! ## Helper lemmas -/

/-- Membership in a `Set`-style fold with any accumulator. -/
theorem mem_foldl_addUnique (l : List String) :
    ∀ (acc : List String) (x : String),
      x ∈ l.foldl addUnique acc ↔ x ∈ acc ∨ x ∈ l := by
  induction l with
  | nil => intro acc x; simp
  | cons y ys ih =>
      intro acc x
      simp only [List.foldl_cons, ih, addUnique]
      by_cases hy : y ∈ acc
      · simp only [if_pos hy, List.mem_cons]
        constructor
        · rintro (h | h)
          · exact Or.inl h
          · exact Or.inr (Or.inr h)
        · rintro (h | rfl | h)
          · exact Or.inl h
          · exact Or.inl hy
          · exact Or.inr h
      · simp only [if_neg hy, List.mem_append, List.mem_cons, List.not_mem_nil,
          or_false]
        constructor
        · rintro ((h | h) | h)
          · exact Or.inl h
          · exact Or.inr (Or.inl h)
          · exact Or.inr (Or.inr h)
        · rintro (h | h | h)
          · exact Or.inl (Or.inl h)
          · exact Or.inl (Or.inr h)
          · exact Or.inr h

/-- The `Set`-style fold never introduces duplicates. -/
theorem nodup_foldl_addUnique (l : List String) :
    ∀ acc : List String, acc.Nodup → (l.foldl addUnique acc).Nodup := by
  induction l with
  | nil => intro acc h; simpa using h
  | cons y ys ih =>
      intro acc h
      simp only [List.foldl_cons, addUnique]
      by_cases hy : y ∈ acc
      · rw [if_pos hy]; exact ih acc h
      · rw [if_neg hy]
        refine ih _ ?_
        simp [List.nodup_append, h, hy]

/-- Elements of `setFold l` are exactly the elements of `l`. -/
theorem mem_setFold (l : List String) (x : String) : x ∈ setFold l ↔ x ∈ l := by
  simpa [setFold] using mem_foldl_addUnique l [] x

/-- `setFold` produces a duplicate-free list. -/
theorem nodup_setFold (l : List String) : (setFold l).Nodup :=
  nodup_foldl_addUnique l [] List.nodup_nil

/-- A key occurring in the key column of an association list has a value. -/
theorem assocGet_isSome_of_contains {α : Type} (l : List (String × α)) (k : String)
    (h : (l.map Prod.fst).contains k = true) : (assocGet k l).isSome := by
  induction l with
  | nil => simp at h
  | cons p rest ih =>
      simp only [List.map_cons, List.contains_cons] at h
      by_cases hk : p.1 = k
      · simp [assocGet, hk]
      · have : (rest.map Prod.fst).contains k = true := by
          rcases Bool.or_eq_true_iff.mp h with h1 | h2
          · exact absurd (by simpa [eq_comm] using beq_iff_eq.mp h1) hk
          · exact h2
        simpa [assocGet, hk] using ih this

/-- An `if`-guarded singleton error list is empty exactly when its check
passes. -/
theorem if_nil_iff (c : Bool) (m : String) :
    (if c then ([] : List String) else [m]) = [] ↔ c = true := by
  cases c <;> simp

/-- How decoding settles `selectedDiscipline`: the truthy `discipline`
param wins, else the normalized stored value. -/
theorem applyStateFromHash_discipline (params : List (String × String))
    (stored : Option String) (s : AppState) :
    (applyStateFromHash params stored s).selectedDiscipline =
      match assocGet "discipline" params with
      | some d => if d = "" then normStore stored else some d
      | none => normStore stored := by
  unfold applyStateFromHash
  rcases assocGet "chart" params with _ | c <;>
    rcases assocGet "label" params with _ | l <;>
    rcases assocGet "discipline" params with _ | d <;>
    (try simp)
  all_goals (split_ifs <;> rfl)

/-- How decoding settles `selectedInsight`: overwritten only when both
`chart` and `label` params are truthy. -/
theorem applyStateFromHash_insight (params : List (String × String))
    (stored : Option String) (s : AppState) :
    (applyStateFromHash params stored s).selectedInsight =
      match assocGet "chart" params, assocGet "label" params with
      | some c, some l =>
          if c = "" ∨ l = "" then s.selectedInsight
          else some { chartKey := c, label := l }
      | _, _ => s.selectedInsight := by
  unfold applyStateFromHash
  rcases assocGet "chart" params with _ | c <;>
    rcases assocGet "label" params with _ | l <;>
    rcases assocGet "discipline" params with _ | d <;>
    (try simp)
  all_goals (split_ifs <;> rfl)

/-- Decoding never touches `sourceFilter`. -/
theorem applyStateFromHash_filter (params : List (String × String))
    (stored : Option String) (s : AppState) :
    (applyStateFromHash params stored s).sourceFilter = s.sourceFilter := by
  unfold applyStateFromHash
  rcases assocGet "chart" params with _ | c <;>
    rcases assocGet "label" params with _ | l <;>
    rcases assocGet "discipline" params with _ | d <;>
    (try simp)
  all_goals (split_ifs <;> rfl)

/-- `showDiscipline` on a known discipline selects it. -/
theorem showDisciplineRun_discipline (data : Dataset) (name : String) (s : AppState)
    (h : (assocGet name data.disciplines).isSome = true) :
    (showDisciplineRun data name s).1.selectedDiscipline = some name := by
  unfold showDisciplineRun
  rcases hdet : assocGet name data.disciplines with _ | det
  · rw [hdet] at h; simp at h
  · rfl

/-- `showDiscipline` never touches `selectedInsight`. -/
theorem showDisciplineRun_insight (data : Dataset) (name : String) (s : AppState) :
    (showDisciplineRun data name s).1.selectedInsight = s.selectedInsight := by
  unfold showDisciplineRun
  rcases assocGet name data.disciplines with _ | det <;> rfl

/-- `showDiscipline` never touches `sourceFilter`. -/
theorem showDisciplineRun_filter (data : Dataset) (name : String) (s : AppState) :
    (showDisciplineRun data name s).1.sourceFilter = s.sourceFilter := by
  unfold showDisciplineRun
  rcases assocGet name data.disciplines with _ | det <;> rfl

/-- After `renderDisciplineView` on a dataset with at least one
discipline, the selected discipline is a key of `disciplines`. -/
theorem renderDisciplineViewState_valid (data : Dataset) (s : AppState)
    (hne : data.disciplines ≠ []) :
    ∃ d, (renderDisciplineViewState data s).selectedDiscipline = some d
      ∧ (assocGet d data.disciplines).isSome = true := by
  obtain ⟨⟨n0, det0⟩, rest, hdd⟩ := List.exists_cons_of_ne_nil hne
  have hn0 : (assocGet n0 data.disciplines).isSome = true := by
    rw [hdd]; simp [assocGet]
  have hn0lit : (assocGet n0 ((n0, det0) :: rest)).isSome = true := by
    simp [assocGet]
  unfold renderDisciplineViewState
  rw [hdd]
  rcases hs : s.selectedDiscipline with _ | d0
  · exact ⟨n0, showDisciplineRun_discipline data n0 s hn0, hn0lit⟩
  · show ∃ d,
        (showDisciplineRun data
          (if (List.map Prod.fst ((n0, det0) :: rest)).contains d0 = true then d0 else n0)
          s).1.selectedDiscipline = some d
        ∧ (assocGet d ((n0, det0) :: rest)).isSome = true
    by_cases hcont : ((List.map Prod.fst ((n0, det0) :: rest)).contains d0) = true
    · have hc2 : (data.disciplines.map Prod.fst).contains d0 = true := by
        rw [hdd]; exact hcont
      have hsome := assocGet_isSome_of_contains data.disciplines d0 hc2
      have hsomelit : (assocGet d0 ((n0, det0) :: rest)).isSome = true := by
        rw [← hdd]; exact hsome
      rw [if_pos hcont]
      exact ⟨d0, showDisciplineRun_discipline data d0 s hsome, hsomelit⟩
    · rw [if_neg hcont]
      exact ⟨n0, showDisciplineRun_discipline data n0 s hn0, hn0lit⟩

/-! ## Claim theorems -/

/-- C1 (counterexample): `handleSelection` compares selections through
the `::`-joined key, not by value.  With the previous selection
`{ chartKey := "a::b", label := "c" }`, calling
`handleSelection("a", "b::c")` clears the selection although the two
pairs differ by value — the claim predicted the new pair would be
selected. -/
theorem toggle_value_equality_cx :
    (handleSelectionState "a" "b::c"
        { initState with
          selectedInsight := some { chartKey := "a::b", label := "c" } }).selectedInsight
      = none
    ∧ ({ chartKey := "a::b", label := "c" } : Insight)
        ≠ { chartKey := "a", label := "b::c" } := by
  constructor
  · decide
  · decide

/-- C1 (amended): `toggleInsight(c, l)` clears `selectedInsight` exactly
when the current selection has the same `::`-joined selection key as
`(c, l)` (which coincides with value equality whenever `::` does not
occur ambiguously in the strings), and otherwise sets it to
`{chartKey := c, label := l}`; applying it twice from a cleared state
returns to the cleared state, and after toggling elements whose keys
differ — in particular elements of two different charts — the second
pair wins. -/
theorem toggle_selection_key_semantics :
    (∀ c l s i, s.selectedInsight = some i →
        (((handleSelectionState c l s).selectedInsight = none ↔
            getSelectionKey i.chartKey i.label = getSelectionKey c l)
          ∧ (getSelectionKey i.chartKey i.label ≠ getSelectionKey c l →
              (handleSelectionState c l s).selectedInsight
                = some { chartKey := c, label := l })))
    ∧ (∀ c l s, s.selectedInsight = none →
        (handleSelectionState c l s).selectedInsight
          = some { chartKey := c, label := l })
    ∧ (∀ c l s, s.selectedInsight = none →
        handleSelectionState c l (handleSelectionState c l s) = s)
    ∧ (∀ c1 l1 c2 l2 s, getSelectionKey c1 l1 ≠ getSelectionKey c2 l2 →
        (handleSelectionState c2 l2 (handleSelectionState c1 l1 s)).selectedInsight
          = some { chartKey := c2, label := l2 }) := by
  refine ⟨?_, ?_, ?_, ?_⟩
  · intro c l s i hi
    by_cases hk : getSelectionKey i.chartKey i.label = getSelectionKey c l
    · simp [handleSelectionState, hi, hk]
    · simp [handleSelectionState, hi, hk]
  · intro c l s h
    simp [handleSelectionState, h]
  · intro c l s h
    cases s with
    | mk ins d f =>
        simp only [] at h
        subst h
        simp [handleSelectionState]
  · intro c1 l1 c2 l2 s hk
    rcases hi : s.selectedInsight with _ | i
    · simp [handleSelectionState, hi, hk]
    · by_cases hk1 : getSelectionKey i.chartKey i.label = getSelectionKey c1 l1
      · simp [handleSelectionState, hi, hk1, hk]
      · simp [handleSelectionState, hi, hk1, hk]

/-- C9: `handleSelection` and the clear-selection handler change only
`selectedInsight`; `selectedDiscipline` and `sourceFilter` are left
untouched for every prior state. -/
theorem toggle_clear_frame (c l : String) (s : AppState) :
    (handleSelectionRun c l s).1
      = { s with selectedInsight := (handleSelectionRun c l s).1.selectedInsight }
    ∧ (clearInsightRun s).1
      = { s with selectedInsight := (clearInsightRun s).1.selectedInsight }
    ∧ (handleSelectionRun c l s).1.selectedDiscipline = s.selectedDiscipline
    ∧ (handleSelectionRun c l s).1.sourceFilter = s.sourceFilter
    ∧ (clearInsightRun s).1.selectedDiscipline = s.selectedDiscipline
    ∧ (clearInsightRun s).1.sourceFilter = s.sourceFilter :=
  ⟨rfl, rfl, rfl, rfl, rfl, rfl⟩

/-- C4 (counterexample): the `setSourceFilter` mutator only re-renders
the source list — its effect trace contains no hash write and no
re-render of the chart adapters or the drilldown drawer, contradicting
the claim that every mutator serializes the state to the URL hash and
re-renders all three charts plus the drawer. -/
theorem mutator_pipeline_cx :
    (setSourceFilterRun "all" initState).2 = [Eff.renderSourceList]
    ∧ Eff.renderCharts ∉ (setSourceFilterRun "all" initState).2
    ∧ Eff.renderDrawer ∉ (setSourceFilterRun "all" initState).2 := by
  refine ⟨rfl, ?_, ?_⟩ <;> decide

/-- C4 (amended): each mutator runs synchronously in source order, but
with different effect sets: `toggleInsight` and `clearInsight` mutate,
then write the hash of the mutated state, then re-render charts, drawer
and source list; `setDiscipline` (`showDiscipline`) mutates, persists the
discipline, writes the hash and re-renders only the source list (no
chart or drawer re-render); `setSourceFilter` mutates and re-renders
only the source list (no persistence, no hash write); and the hash never
encodes `sourceFilter`. -/
theorem mutator_pipeline_amended :
    (∀ c l s, handleSelectionRun c l s =
        (handleSelectionState c l s,
         [Eff.writeHash (updateHashParams (handleSelectionState c l s)),
          Eff.renderCharts, Eff.renderDrawer, Eff.renderSourceList]))
    ∧ (∀ s, clearInsightRun s =
        ({ s with selectedInsight := none },
         [Eff.writeHash (updateHashParams { s with selectedInsight := none }),
          Eff.renderCharts, Eff.renderDrawer, Eff.renderSourceList]))
    ∧ (∀ data name det s, assocGet name data.disciplines = some det →
        showDisciplineRun data name s =
          ({ s with selectedDiscipline := some name },
           [Eff.persistDiscipline name,
            Eff.writeHash (updateHashParams { s with selectedDiscipline := some name }),
            Eff.renderSourceList])
          ∧ Eff.renderCharts ∉ (showDisciplineRun data name s).2
          ∧ Eff.renderDrawer ∉ (showDisciplineRun data name s).2)
    ∧ (∀ v s, setSourceFilterRun v s = ({ s with sourceFilter := v }, [Eff.renderSourceList]))
    ∧ (∀ s v, updateHashParams { s with sourceFilter := v } = updateHashParams s) := by
  refine ⟨fun c l s => rfl, fun s => rfl, ?_, fun v s => rfl, fun s v => rfl⟩
  intro data name det s h
  refine ⟨?_, ?_, ?_⟩ <;> simp [showDisciplineRun, h]

/-- C4 (witness): the amended pipeline at a concrete discipline of the
sample dataset. -/
theorem mutator_pipeline_witness :
    showDisciplineRun sampleData "Nursing" initState =
      ({ initState with selectedDiscipline := some "Nursing" },
       [Eff.persistDiscipline "Nursing",
        Eff.writeHash [("discipline", "Nursing")],
        Eff.renderSourceList]) :=
  (mutator_pipeline_amended.2.2.1 sampleData "Nursing"
    { topSkillsEmphasis := ["a"], learningOutcomes := ["b"],
      sampleAssignments := ["c"], watchOuts := ["d"],
      sources := ["oecd", "lightcast", "oecd"] }
    initState (by decide)).1

/-- C6: under the `"all"` filter the displayed ids are exactly the keys
of `sources` in declaration order; under `"selection"` they are the
de-duplicated union of the insight chart's source id and the selected
discipline's source ids; an empty id list renders the explicit
placeholder (and only then). -/
theorem source_aggregation_contract (data : Dataset) (i : Option Insight)
    (d : Option String) :
    sourceIdsFor data
        { selectedInsight := i, selectedDiscipline := d, sourceFilter := "all" }
      = data.sources.map Prod.fst
    ∧ (∀ x, x ∈ sourceIdsFor data
          { selectedInsight := i, selectedDiscipline := d, sourceFilter := "selection" } ↔
        x ∈ chartInsightIds data
            { selectedInsight := i, selectedDiscipline := d, sourceFilter := "selection" }
        ∨ x ∈ disciplineSourceIds data
            { selectedInsight := i, selectedDiscipline := d, sourceFilter := "selection" })
    ∧ (sourceIdsFor data
        { selectedInsight := i, selectedDiscipline := d,
          sourceFilter := "selection" }).Nodup
    ∧ sourceIdsFor data
        { selectedInsight := none, selectedDiscipline := none,
          sourceFilter := "selection" } = []
    ∧ (∀ s : AppState,
        renderSourcesView data s = SourcesView.placeholder ↔ sourceIdsFor data s = []) := by
  refine ⟨?_, ?_, ?_, ?_, ?_⟩
  · simp [sourceIdsFor]
  · intro x
    simp [sourceIdsFor, getSelectedSourceIds, mem_setFold, List.mem_append]
  · simpa [sourceIdsFor] using nodup_setFold _
  · simp [sourceIdsFor, getSelectedSourceIds, chartInsightIds, disciplineSourceIds, setFold]
  · intro s
    by_cases h : sourceIdsFor data s = []
    · simp [renderSourcesView, h]
    · simp [renderSourcesView, h]

/-- C10: the placeholder decision is made on the aggregated id list
before resolution, and unresolvable ids are silently skipped — so a
non-empty id list all of whose ids are unresolvable renders an empty
item list, not the placeholder. -/
theorem sources_skip_unresolved (data : Dataset) (s : AppState)
    (h1 : sourceIdsFor data s ≠ [])
    (h2 : ∀ sid ∈ sourceIdsFor data s, assocGet sid data.sources = none) :
    renderSourcesView data s = SourcesView.items []
    ∧ renderSourcesView data s ≠ SourcesView.placeholder := by
  have hv : renderSourcesView data s
      = SourcesView.items ((sourceIdsFor data s).filterMap (resolveItem data)) := by
    simp [renderSourcesView, h1]
  have hz : (sourceIdsFor data s).filterMap (resolveItem data) = [] := by
    rw [List.filterMap_eq_nil_iff]
    intro a ha
    simp [resolveItem, h2 a ha]
  rw [hv, hz]
  exact ⟨rfl, by simp⟩

/-- C10 (witness): a selection on the chart whose `sourceId` has no
entry in `sources` — the id list is `["ghost"]`, nothing resolves, and
the rendered list is empty rather than the placeholder. -/
theorem sources_skip_unresolved_witness :
    renderSourcesView sampleData ghostState = SourcesView.items []
    ∧ renderSourcesView sampleData ghostState ≠ SourcesView.placeholder :=
  sources_skip_unresolved sampleData ghostState (by decide) (by decide)

/-- C7: the drilldown resolver is total (never throws): no selection
gives the prompt view; a selection without a matching drilldown entry
gives the no-details view; a matched entry gives the detail together
with the source resolved by `sourceId` lookup and the chart's
`asOfDate`; and when the chart's `sourceId` resolves to no source, the
link text falls back to the raw id rather than failing. -/
theorem drilldown_resolver_contract (data : Dataset) (s : AppState) :
    (s.selectedInsight = none → renderInsightDrawer data s = DrawerView.prompt)
    ∧ (∀ i, s.selectedInsight = some i → drawerDetail data i = none →
        renderInsightDrawer data s = DrawerView.noDetails)
    ∧ (∀ i dd, s.selectedInsight = some i → drawerDetail data i = some dd →
        renderInsightDrawer data s =
          DrawerView.content dd (resolvedName data i) (resolvedUrl data i)
            (resolvedAsOf data i))
    ∧ (∀ i ch sid, drawerChart data i = some ch → ch.sourceId = some sid →
        assocGet sid data.sources = none → resolvedName data i = sid) := by
  refine ⟨?_, ?_, ?_, ?_⟩
  · intro h; simp [renderInsightDrawer, h]
  · intro i hi hd; simp [renderInsightDrawer, hi, hd]
  · intro i dd hi hd; simp [renderInsightDrawer, hi, hd]
  · intro i ch sid hch hsid hres
    simp [resolvedName, drawerSource, hch, hsid, hres]

/-- C7 (witness): the resolver at a concrete matched selection of the
sample dataset, with its source resolved by id lookup. -/
theorem drilldown_resolver_witness :
    renderInsightDrawer sampleData
        { selectedInsight := some { chartKey := "aiMentionsTrend", label := "2024-Q1" },
          selectedDiscipline := none, sourceFilter := "selection" }
      = DrawerView.content detailQ1 "Lightcast" "https://lc.example" "2025-01" :=
  (drilldown_resolver_contract sampleData _).2.2.1
    { chartKey := "aiMentionsTrend", label := "2024-Q1" } detailQ1 rfl (by decide)

/-- C5 (counterexample): with no hash fragment and nothing in local
storage, `selectedDiscipline` does not keep its default `null` after
initialization — `renderDisciplineView` auto-selects the first
discipline of the dataset. -/
theorem boot_seed_cx :
    (initStateFrom sampleData [] none).selectedDiscipline = some "Nursing"
    ∧ (initStateFrom sampleData [] none).selectedDiscipline ≠ none := by
  refine ⟨?_, ?_⟩ <;> decide

/-- C5 (amended): seeding merges hash over local storage over defaults —
a truthy hash `discipline` overrides storage, storage is the fallback
when the hash has none, `selectedInsight` and `sourceFilter` keep their
defaults when the hash does not provide them — but after initialization
completes, `selectedDiscipline` keeps its seeded value only as the input
to `renderDisciplineView`, which auto-selects the first discipline when
none was seeded (the default survives initialization only when
`disciplines` is empty); `selectedInsight` and `sourceFilter` are
unchanged by that final step. -/
theorem boot_seed_amended :
    (∀ params stored s d, assocGet "discipline" params = some d → d ≠ "" →
        (applyStateFromHash params stored s).selectedDiscipline = some d)
    ∧ (∀ params stored s, assocGet "discipline" params = none →
        (applyStateFromHash params stored s).selectedDiscipline = normStore stored)
    ∧ (∀ params stored, (applyStateFromHash params stored initState).sourceFilter
        = "selection")
    ∧ (∀ params stored, assocGet "chart" params = none →
        (applyStateFromHash params stored initState).selectedInsight = none)
    ∧ (∀ data params stored, data.disciplines = [] →
        initStateFrom data params stored = applyStateFromHash params stored initState)
    ∧ (∀ data params stored,
        (initStateFrom data params stored).selectedInsight
          = (applyStateFromHash params stored initState).selectedInsight
        ∧ (initStateFrom data params stored).sourceFilter
          = (applyStateFromHash params stored initState).sourceFilter)
    ∧ (∀ data n0 det rest, data.disciplines = (n0, det) :: rest →
        (initStateFrom data [] none).selectedDiscipline = some n0) := by
  refine ⟨?_, ?_, ?_, ?_, ?_, ?_, ?_⟩
  · intro params stored s d h hd
    rw [applyStateFromHash_discipline, h]
    simp [hd]
  · intro params stored s h
    rw [applyStateFromHash_discipline, h]
  · intro params stored
    rw [applyStateFromHash_filter]
    rfl
  · intro params stored h
    rw [applyStateFromHash_insight, h]
    rcases assocGet "label" params with _ | l <;> rfl
  · intro data params stored h
    unfold initStateFrom renderDisciplineViewState
    rw [h]
  · intro data params stored
    unfold initStateFrom renderDisciplineViewState
    rcases data.disciplines with _ | ⟨⟨n0, det0⟩, rest⟩
    · exact ⟨rfl, rfl⟩
    · exact ⟨showDisciplineRun_insight _ _ _, showDisciplineRun_filter _ _ _⟩
  · intro data n0 det rest h
    have hn0 : (assocGet n0 data.disciplines).isSome = true := by
      rw [h]; simp [assocGet]
    have hseed : (applyStateFromHash [] none initState).selectedDiscipline = none := by
      rw [applyStateFromHash_discipline]
      rfl
    unfold initStateFrom renderDisciplineViewState
    rw [h, hseed]
    exact showDisciplineRun_discipline data n0 _ hn0

/-- C5 (witness): a hash-provided discipline overrides a conflicting
stored one. -/
theorem boot_seed_witness :
    (applyStateFromHash [("discipline", "X")] (some "Y") initState).selectedDiscipline
      = some "X" :=
  boot_seed_amended.1 [("discipline", "X")] (some "Y") initState "X" (by decide) (by decide)

/-- C2 (counterexample): boot seeding does not validate the hash against
the dataset — booting the sample dataset with the fragment
`#chart=bogus&label=nope` yields a state whose `selectedInsight` names a
chart key that is not in `charts`, violating the claimed invariant in a
reachable state. -/
theorem selection_invariant_cx :
    stateInv sampleData
        (initStateFrom sampleData [("chart", "bogus"), ("label", "nope")] none)
      = false := by
  decide

/-- C2 (amended): the invariant is preserved by the in-app mutators —
`toggleInsight` invoked with a chart key and one of its labels (as the
chart adapters do), `clearInsight`, `showDiscipline` on a known
discipline, and `setSourceFilter` — and after initialization the
selected discipline is a key of `disciplines` whenever `disciplines` is
non-empty; but hash seeding installs `selectedInsight` without
validation, so the invariant can fail in boot-reachable states. -/
theorem selection_invariant_amended :
    (∀ data s c l ch, stateInv data s = true → assocGet c data.charts = some ch →
        ch.labels.contains l = true → stateInv data (handleSelectionRun c l s).1 = true)
    ∧ (∀ data s, stateInv data s = true → stateInv data (clearInsightRun s).1 = true)
    ∧ (∀ data s name det, stateInv data s = true →
        assocGet name data.disciplines = some det →
        stateInv data (showDisciplineRun data name s).1 = true)
    ∧ (∀ data s v, stateInv data s = true → stateInv data (setSourceFilterRun v s).1 = true)
    ∧ (∀ data params stored, data.disciplines ≠ [] →
        ∃ d, (initStateFrom data params stored).selectedDiscipline = some d
          ∧ (assocGet d data.disciplines).isSome = true) := by
  refine ⟨?_, ?_, ?_, ?_, ?_⟩
  · intro data s c l ch h hch hl
    have hdisc := (Bool.and_eq_true _ _ |>.mp h).2
    have hstep : (handleSelectionRun c l s).1.selectedInsight = none
        ∨ (handleSelectionRun c l s).1.selectedInsight
            = some { chartKey := c, label := l } := by
      simp only [handleSelectionRun, handleSelectionState]
      split
      · exact Or.inl rfl
      · exact Or.inr rfl
    have hd2 : (handleSelectionRun c l s).1.selectedDiscipline = s.selectedDiscipline := rfl
    have hlmem : l ∈ ch.labels := by simpa using hl
    rcases hstep with hnone | hsome
    · simp [stateInv, hnone, hd2, hdisc]
    · simp [stateInv, hsome, hd2, insightValid, hch, hl, hlmem, hdisc]
  · intro data s h
    have hdisc := (Bool.and_eq_true _ _ |>.mp h).2
    simp [stateInv, clearInsightRun, hdisc]
  · intro data s name det h hname
    have hins := (Bool.and_eq_true _ _ |>.mp h).1
    simp only [showDisciplineRun, hname, stateInv, Bool.and_eq_true]
    refine ⟨hins, ?_⟩
    simp [hname]
  · intro data s v h
    simpa only [setSourceFilterRun, stateInv, Bool.and_eq_true] using h
  · intro data params stored hne
    exact renderDisciplineViewState_valid data (applyStateFromHash params stored initState)
      hne

/-- C2 (witness): the amended invariant preservation at a concrete valid
toggle on the sample dataset. -/
theorem selection_invariant_witness :
    stateInv sampleData
        (handleSelectionRun "aiMentionsTrend" "2024-Q1" initState).1 = true :=
  selection_invariant_amended.1 sampleData initState "aiMentionsTrend" "2024-Q1"
    trendChart (by decide) (by decide) (by decide)

/-- C3 (counterexample): the round-trip fails when local storage holds a
discipline and the well-formed fragment carries none: decoding
`#chart=aiMentionsTrend&label=2024-Q1` with `"Nursing"` in storage and
re-encoding injects the stored discipline into the fragment. -/
theorem hash_roundtrip_cx :
    wfFrag [("chart", "aiMentionsTrend"), ("label", "2024-Q1")] = true
    ∧ updateHashParams
        (applyStateFromHash [("chart", "aiMentionsTrend"), ("label", "2024-Q1")]
          (some "Nursing") initState)
      = [("discipline", "Nursing"), ("chart", "aiMentionsTrend"), ("label", "2024-Q1")]
    ∧ ([("discipline", "Nursing"), ("chart", "aiMentionsTrend"), ("label", "2024-Q1")]
        : List (String × String))
      ≠ [("chart", "aiMentionsTrend"), ("label", "2024-Q1")] := by
  refine ⟨?_, ?_, ?_⟩ <;> decide

/-- C3 (amended): decoding a well-formed fragment from the boot state and
re-encoding reproduces the fragment, with key order discipline, chart,
label, provided the fragment carries a `discipline` key or local storage
holds no discipline (otherwise the stored discipline is added); and
encode-then-decode preserves any state with a truthy discipline and an
insight selected. -/
theorem hash_roundtrip_amended :
    (∀ f stored, wfFrag f = true →
        ((assocGet "discipline" f).isSome = true ∨ normStore stored = none) →
        updateHashParams (applyStateFromHash f stored initState) = f)
    ∧ (∀ stored s d i, s.selectedDiscipline = some d → d ≠ "" →
        s.selectedInsight = some i →
        applyStateFromHash (updateHashParams s) stored s = s) := by
  constructor
  · intro f stored hwf hside
    rcases f with _ | ⟨⟨k1, v1⟩, _ | ⟨⟨k2, v2⟩, _ | ⟨⟨k3, v3⟩, _ | ⟨p4, rest⟩⟩⟩⟩
    · have hst : normStore stored = none := by
        rcases hside with h1 | h2
        · simp [assocGet] at h1
        · exact h2
      simp [applyStateFromHash, updateHashParams, assocGet, hst, initState]
    · simp only [wfFrag, Bool.and_eq_true, beq_iff_eq, bne_iff_ne] at hwf
      obtain ⟨hk, hv⟩ := hwf
      subst hk
      simp [applyStateFromHash, updateHashParams, assocGet, hv, initState]
    · simp only [wfFrag, Bool.and_eq_true, beq_iff_eq, bne_iff_ne] at hwf
      obtain ⟨⟨⟨hk1, hk2⟩, hv1⟩, hv2⟩ := hwf
      subst hk1
      subst hk2
      have hst : normStore stored = none := by
        rcases hside with h1 | h2
        · simp [assocGet] at h1
        · exact h2
      simp [applyStateFromHash, updateHashParams, assocGet, hst, hv1, hv2, initState]
    · simp only [wfFrag, Bool.and_eq_true, beq_iff_eq, bne_iff_ne] at hwf
      obtain ⟨⟨⟨⟨⟨hk1, hk2⟩, hk3⟩, hv1⟩, hv2⟩, hv3⟩ := hwf
      subst hk1
      subst hk2
      subst hk3
      simp [applyStateFromHash, updateHashParams, assocGet, hv1, hv2, hv3, initState]
    · simp [wfFrag] at hwf
  · intro stored s d i hd hdne hi
    obtain ⟨ins, disc, filt⟩ := s
    obtain ⟨ic, il⟩ := i
    dsimp only at hd hi
    subst hd
    subst hi
    by_cases hil : ic = "" ∨ il = ""
    · simp [applyStateFromHash, assocGet, updateHashParams, hdne, hil]
    · simp [applyStateFromHash, assocGet, updateHashParams, hdne, hil]

/-- C3 (witness): the amended round trip at a concrete full fragment
with conflicting stored discipline. -/
theorem hash_roundtrip_witness :
    updateHashParams
        (applyStateFromHash
          [("discipline", "Nursing"), ("chart", "trendChart"), ("label", "2024-Q1")]
          (some "Other") initState)
      = [("discipline", "Nursing"), ("chart", "trendChart"), ("label", "2024-Q1")] :=
  hash_roundtrip_amended.1
    [("discipline", "Nursing"), ("chart", "trendChart"), ("label", "2024-Q1")]
    (some "Other") (by decide) (Or.inl (by decide))

/-- C8 (counterexample): a dataset whose `disciplines` field is an array
(a sequence, not a keyed mapping) passes `validateDataShape` with an
empty issue list, because the code checks only `typeof === "object"` for
`disciplines` and `typeof [] === "object"` in JS. -/
theorem validator_cx :
    validateDataShape arrDisciplinesDoc = Except.ok []
    ∧ jsGet arrDisciplinesDoc "disciplines" = some (Json.arr []) :=
  ⟨rfl, rfl⟩

/-- C8 (amended): for non-null input the validator is pure and returns
the issue list, empty exactly when: the top level is an array or
non-null object, `takeaway.headline` is truthy, `coreSkills` is an
array, each of the three known chart identifiers has a truthy
`sourceId`, `sources` is an object (arrays rejected), and `disciplines`
is an object or an array — a sequence passes the disciplines check; a
null dataset makes the validator throw instead of returning; and on a
non-empty result the boot chain shows the concatenated alerts and never
runs `init`. -/
theorem validator_amended :
    (∀ data : Json, isNullJson data = false →
        (validateDataShape data = Except.ok [] ↔
          (chkObject data = true ∧ chkHeadline data = true ∧ chkCoreSkills data = true
           ∧ chkChartSource data "aiMentionsTrend" = true
           ∧ chkChartSource data "aiMentionsByFamily" = true
           ∧ chkChartSource data "aiOutsideITShare" = true
           ∧ chkSources data = true ∧ chkDisciplines data = true)))
    ∧ (∀ data : Json, isNullJson data = true → validateDataShape data = Except.error ())
    ∧ (∀ issues : List String, issues ≠ [] →
        bootRun issues =
          (["Data validation problem: " ++ String.intercalate " " issues,
            "Could not initialize dashboard: " ++ String.intercalate " " issues], false))
    ∧ (∀ issues : List String, issues = [] → bootRun issues = ([], true)) := by
  refine ⟨?_, ?_, ?_, ?_⟩
  · intro data hnn
    rw [validateDataShape, if_neg (by simp [hnn])]
    simp only [Except.ok.injEq]
    simp [validationIssues, if_nil_iff, and_assoc]
  · intro data hn
    rw [validateDataShape, if_pos (by simp [hn])]
  · intro issues h
    simp [bootRun, h]
  · intro issues h
    simp [bootRun, h]

/-- C8 (witness): the boot chain at a concrete non-empty issue list —
both alerts carry the concatenated issues and initialization is
aborted. -/
theorem validator_witness :
    bootRun ["Missing disciplines object."]
      = (["Data validation problem: Missing disciplines object.",
          "Could not initialize dashboard: Missing disciplines object."], false) :=
  validator_amended.2.2.1 ["Missing disciplines object."] (by decide)

end Dashboard
